import Mathlib

/-!
Verification of the mirroring aggregator of the gocsaf/csaf repository.

This file gives a shallow embedding of the aggregator's core functions:

* csaf/advisories.go: the advisory-file union (PlainAdvisoryFile and
  DirectoryAdvisoryFile), the ROLIE entry filtering of
  AdvisoryFileProcessor.processROLIE and the directory-based enumeration of
  AdvisoryFileProcessor.Process / loadChanges;
* cmd/csaf_aggregator/indices.go: worker.writeCSV, worker.writeIndex and the
  URL composition of worker.writeROLIE;
* cmd/csaf_aggregator (mirror code): worker.mirrorInternal's pipeline order,
  worker.doMirrorTransaction;
* cmd/csaf_aggregator/processor.go: processor.locateProviderMetadata and
  processor.removeOrphans.

External collaborators (HTTP client, JSON decoding, Go stdlib path and time
functions) are modelled as explicit oracle parameters; machine effects
(filesystem removals, log lines) are reified as result values or action lists.
-/

namespace Csaf

/-- AdvisoryFile embeds the csaf.AdvisoryFile interface of csaf/advisories.go:
a discriminated union of PlainAdvisoryFile (explicit hash and signature URLs)
and DirectoryAdvisoryFile (URLs derived from the path by suffixing). -/
inductive AdvisoryFile where
  | plain (path sha256 sha512 sign : String)
  | directory (path : String)
deriving DecidableEq, Repr

/-- AdvisoryFile.url embeds the URL() methods of both variants. -/
def AdvisoryFile.url : AdvisoryFile → String
  | .plain p _ _ _ => p
  | .directory p => p

/-- AdvisoryFile.sha256URL embeds the SHA256URL() methods: plain files carry an
explicit URL, directory files append ".sha256" to the path. -/
def AdvisoryFile.sha256URL : AdvisoryFile → String
  | .plain _ h _ _ => h
  | .directory p => p ++ ".sha256"

/-- AdvisoryFile.sha512URL embeds the SHA512URL() methods. -/
def AdvisoryFile.sha512URL : AdvisoryFile → String
  | .plain _ _ h _ => h
  | .directory p => p ++ ".sha512"

/-- AdvisoryFile.signURL embeds the SignURL() methods. -/
def AdvisoryFile.signURL : AdvisoryFile → String
  | .plain _ _ _ s => s
  | .directory p => p ++ ".asc"

/-- AdvisoryFile.isDirectory embeds the IsDirectory() methods. -/
def AdvisoryFile.isDirectory : AdvisoryFile → Bool
  | .plain _ _ _ _ => false
  | .directory _ => true

/-- GoTime models a Go time.Time as an absolute instant (sec, where 0 models
IsZero) together with its calendar year, which is all the aggregator reads
from a timestamp. -/
structure GoTime where
  sec : Int
  year : Int
deriving DecidableEq, Repr

/-- GoTime.isZero models time.Time.IsZero. -/
def GoTime.isZero (t : GoTime) : Bool := t.sec == 0

/-- GoTime.after models a.After(b), which is strict comparison. -/
def GoTime.after (a b : GoTime) : Bool := decide (b.sec < a.sec)

/-- Link is one link object of a ROLIE feed entry. -/
structure Link where
  rel : String
  href : String
deriving DecidableEq, Repr

/-- Entry is a ROLIE feed entry as read by processROLIE: its updated timestamp
and its link set. -/
structure Entry where
  updated : GoTime
  links : List Link
deriving DecidableEq, Repr

/-- LinkScan holds the four strings the link loop of processROLIE accumulates
(zero values are empty strings, as in Go). -/
structure LinkScan where
  self : String
  sha256 : String
  sha512 : String
  sign : String
deriving DecidableEq, Repr

/-- goToLower models strings.ToLower on the ASCII range (URLs in the embedded
code paths are ASCII); it is written over the character list so that it
reduces by computation. -/
def goToLower (s : String) : String := String.mk (s.data.map Char.toLower)

/-- goHasSuffix models strings.HasSuffix, written over the character lists so
that it reduces by computation. -/
def goHasSuffix (s pat : String) : Bool := pat.data.isSuffixOf s.data

/-- scanStep embeds one iteration of the link loop in processROLIE: rel=self
and rel=signature assign the resolved href, rel=hash entries are discriminated
by the lower-cased ".sha256" / ".sha512" suffix of the raw href. The resolve
parameter stands for the feed-base URL resolution closure of the source. -/
def scanStep (resolve : String → String) (acc : LinkScan) (l : Link) : LinkScan :=
  let lower := goToLower l.href
  if l.rel = "self" then { acc with self := resolve l.href }
  else if l.rel = "signature" then { acc with sign := resolve l.href }
  else if l.rel = "hash" then
    if goHasSuffix lower ".sha256" then { acc with sha256 := resolve l.href }
    else if goHasSuffix lower ".sha512" then { acc with sha512 := resolve l.href }
    else acc
  else acc

/-- scanLinks runs the full link loop of processROLIE over an entry's links. -/
def scanLinks (resolve : String → String) (links : List Link) : LinkScan :=
  links.foldl (scanStep resolve) ⟨"", "", "", ""⟩

/-- EntryResult reifies the outcome of the per-entry closure in processROLIE.
ageFiltered and skipped produce no log line; droppedNoHash and droppedNoSig
correspond to the two slog.Error calls; emitted appends a PlainAdvisoryFile. -/
inductive EntryResult where
  | ageFiltered
  | skipped
  | droppedNoHash
  | droppedNoSig
  | emitted (f : AdvisoryFile)
deriving DecidableEq, Repr

/-- EntryResult.logged tells whether the outcome issued a slog.Error line. -/
def EntryResult.logged : EntryResult → Bool
  | .droppedNoHash => true
  | .droppedNoSig => true
  | _ => false

/-- EntryResult.file extracts the emitted advisory file, if any. -/
def EntryResult.file : EntryResult → Option AdvisoryFile
  | .emitted f => some f
  | _ => none

/-- passesAge is the negation of the early-return age filter in processROLIE:
with no AgeAccept everything passes; otherwise an entry passes when its
updated time is zero or accepted. -/
def passesAge (ageAccept : Option (GoTime → Bool)) (e : Entry) : Bool :=
  match ageAccept with
  | some acc => e.updated.isZero || acc e.updated
  | none => true

/-- processEntry embeds the closure passed to rfeed.Entries in processROLIE:
age filtering, the link scan, then the self / hash / signature decision. -/
def processEntry (ageAccept : Option (GoTime → Bool)) (resolve : String → String)
    (e : Entry) : EntryResult :=
  if !passesAge ageAccept e then .ageFiltered
  else
    let s := scanLinks resolve e.links
    if s.self = "" then .skipped
    else if s.sha256 = "" && s.sha512 = "" then .droppedNoHash
    else if s.sign = "" then .droppedNoSig
    else .emitted (.plain s.self s.sha256 s.sha512 s.sign)

/-- Feed is one feed object of the provider metadata, as used by processROLIE:
an optional URL and an optional TLP label. -/
structure Feed where
  url : Option String
  tlpLabel : Option String
deriving DecidableEq, Repr

/-- feedFiles collects the advisory files emitted for a feed's entries, in
order, as the files slice of processROLIE does. -/
def feedFiles (ageAccept : Option (GoTime → Bool)) (resolve : String → String)
    (entries : List Entry) : List AdvisoryFile :=
  entries.filterMap (fun e => (processEntry ageAccept resolve e).file)

/-- processROLIEFeed embeds one iteration of the feed loop in processROLIE.
The fetch oracle abstracts URL parsing, the HTTP GET and the ROLIE feed
parsing; none means one of these failed and the feed is skipped (continue in
the source). On success the per-label callback is invoked once with the feed's
TLP label, defaulting to the literal "unknown" when the label is absent. -/
def processROLIEFeed (ageAccept : Option (GoTime → Bool)) (resolve : String → String)
    (fetch : String → Option (List Entry)) (feed : Feed) :
    Option (String × List AdvisoryFile) :=
  match feed.url with
  | none => none
  | some u =>
    match fetch u with
    | none => none
    | some entries =>
      let files := feedFiles ageAccept resolve entries
      let label := match feed.tlpLabel with
        | some l => l
        | none => "unknown"
      some (label, files)

/-- DirEnv bundles the external collaborators of the directory-based
enumeration path: RFC3339 time parsing, URL validation, the optional age
filter, base.JoinPath and the changes.csv fetch (none models a transport or
non-200 failure of loadChanges). -/
structure DirEnv where
  parseTime : String → Option GoTime
  validURL : String → Bool
  ageAccept : Option (GoTime → Bool)
  join : String → String → String
  changes : String → Option (List (List String))

/-- loadChangesRow embeds one iteration of the row loop of loadChanges: rows
with fewer than two columns, unparseable timestamps, age-rejected timestamps
and invalid URLs are skipped; otherwise a DirectoryAdvisoryFile with the
joined path is produced. -/
def loadChangesRow (env : DirEnv) (base : String) (r : List String) :
    Option AdvisoryFile :=
  if h : r.length < 2 then none
  else
    match env.parseTime (r.get ⟨1, by omega⟩) with
    | none => none
    | some t =>
      if (match env.ageAccept with
          | some acc => !acc t
          | none => false) then none
      else
        let path := r.get ⟨0, by omega⟩
        if !env.validURL path then none
        else some (.directory (env.join base path))

/-- loadChangesFiles runs the row loop of loadChanges over all parsed CSV
records of changes.csv. -/
def loadChangesFiles (env : DirEnv) (base : String) (rows : List (List String)) :
    List AdvisoryFile :=
  rows.filterMap (loadChangesRow env base)

/-- goEmpty embeds the empty() helper of csaf/advisories.go: true iff the list
contains no non-empty string. -/
def goEmpty (arr : List String) : Bool := arr.all (fun s => s == "")

/-- directoryBases embeds the fallback in Process: when the extracted
directory URLs are all empty, the provider-metadata base URL is used. -/
def directoryBases (dirURLs : List String) (baseURL : String) : List String :=
  if goEmpty dirURLs then [baseURL] else dirURLs

/-- processDirectories embeds the directory branch of
AdvisoryFileProcessor.Process: it walks the bases, skips empty strings, loads
changes.csv for each and invokes the callback with the literal WHITE label.
The Bool result is false when a loadChanges failure aborted the walk; the list
collects the callback invocations made before that. -/
def processDirectories (env : DirEnv) (dirURLs : List String) (baseURL : String) :
    List (String × List AdvisoryFile) × Bool :=
  go (directoryBases dirURLs baseURL)
where
  go : List String → List (String × List AdvisoryFile) × Bool
    | [] => ([], true)
    | base :: rest =>
      if base = "" then go rest
      else
        match env.changes base with
        | none => ([], false)
        | some rows =>
          let out := go rest
          (("WHITE", loadChangesFiles env base rows) :: out.1, out.2)

/-- AdvSummary models csaf.AdvisorySummary: the fields the index writer reads
(text is the optional summary, empty string when absent). -/
structure AdvSummary where
  id : String
  title : String
  text : String
  initialReleaseDate : GoTime
  currentReleaseDate : GoTime
deriving DecidableEq, Repr

/-- Summary models the per-advisory summary record of the aggregator worker:
the chosen on-disk filename, the advisory summary and the source URL. -/
structure Summary where
  filename : String
  adv : AdvSummary
  url : String
deriving DecidableEq, Repr

/-- csvLE is the merge-sort key corresponding to the sort.SliceStable
comparator of worker.writeCSV, which is CurrentReleaseDate.After (strictly
more recent first): a stable sort under less lt equals a stable merge sort
under le a b := not (lt b a). -/
def csvLE (a b : Summary) : Bool :=
  !(GoTime.after b.adv.currentReleaseDate a.adv.currentReleaseDate)

/-- sortByCurrentDesc is the stable descending sort by current release date
performed by worker.writeCSV on its private copy of the summaries. -/
def sortByCurrentDesc (summaries : List Summary) : List Summary :=
  summaries.mergeSort csvLE

/-- yearSlash builds the strconv.Itoa(year) ++ "/" ++ filename path written in
both changes.csv records and index.txt lines, with year the initial release
year. -/
def yearSlash (s : Summary) : String :=
  toString s.adv.initialReleaseDate.year ++ "/" ++ s.filename

/-- csvRecord is one two-column record of changes.csv: the RFC3339-formatted
current release date (fmt models time.Time.Format RFC3339) and the
year/filename path. -/
def csvRecord (fmt : GoTime → String) (s : Summary) : List String :=
  [fmt s.adv.currentReleaseDate, yearSlash s]

/-- writeCSVRun embeds worker.writeCSV. It returns the CSV records written (in
file order, no header record) and the content of the caller-owned summaries
slice after the call: the source sorts a fresh copy (make + copy +
sort.SliceStable on the copy), so the caller's slice is unchanged. -/
def writeCSVRun (fmt : GoTime → String) (summaries : List Summary) :
    List (List String) × List Summary :=
  let ss := summaries
  let sorted := sortByCurrentDesc ss
  (sorted.map (csvRecord fmt), summaries)

/-- writeIndexLines embeds worker.writeIndex: one year/filename line per
summary, in slice order. -/
def writeIndexLines (summaries : List Summary) : List String :=
  summaries.map yearSlash

/-- RolieEntry models the csaf.Entry built by worker.writeROLIE for one
summary: its identifier, title, timestamps, the self link href and the content
src. -/
structure RolieEntry where
  id : String
  title : String
  published : GoTime
  updated : GoTime
  selfLink : String
  contentSrc : String
deriving DecidableEq, Repr

/-- csafEntryURL is the per-entry URL composition of worker.writeROLIE,
verbatim from the source: the configured domain, then the string
"./well-known/csaf-aggregator/", provider name, label, year and filename. -/
def csafEntryURL (domain providerName label : String) (s : Summary) : String :=
  domain ++ "./well-known/csaf-aggregator/" ++ providerName ++ "/" ++ label ++
    "/" ++ toString s.adv.initialReleaseDate.year ++ "/" ++ s.filename

/-- specEntryURL follows the specification's words instead of the source: the
unambiguous form domain ++ "/.well-known/csaf-aggregator/" ++ provider name,
label, year and filename. It exists only to be compared with csafEntryURL. -/
def specEntryURL (domain providerName label : String) (s : Summary) : String :=
  domain ++ "/.well-known/csaf-aggregator/" ++ providerName ++ "/" ++ label ++
    "/" ++ toString s.adv.initialReleaseDate.year ++ "/" ++ s.filename

/-- rolieEntryOf builds the feed entry of worker.writeROLIE for one summary:
both the rel=self link href and the content src are the same composed URL. -/
def rolieEntryOf (domain providerName label : String) (s : Summary) : RolieEntry :=
  { id := s.adv.id
    title := s.adv.title
    published := s.adv.initialReleaseDate
    updated := s.adv.currentReleaseDate
    selfLink := csafEntryURL domain providerName label s
    contentSrc := csafEntryURL domain providerName label s }

/-- writeROLIEEntries builds the entry list of the feed document written by
worker.writeROLIE. The final SortEntriesByUpdated call of the source (defined
outside the embedded files) only permutes the entries and does not change any
field, so it is not modelled here. -/
def writeROLIEEntries (domain providerName label : String)
    (summaries : List Summary) : List RolieEntry :=
  summaries.map (rolieEntryOf domain providerName label)

/-- writeIndicesLabel embeds one label iteration of worker.writeIndices: the
same summaries slice is passed to writeCSV, then to writeIndex, then to
writeROLIE; writeIndex and writeROLIE observe the slice as writeCSV left it. -/
def writeIndicesLabel (fmt : GoTime → String)
    (domain providerName label : String) (summaries : List Summary) :
    List (List String) × List String × List RolieEntry :=
  let csvOut := writeCSVRun fmt summaries
  let idx := writeIndexLines csvOut.2
  (csvOut.1, idx, writeROLIEEntries domain providerName label csvOut.2)

/-- MirrorStep names the pipeline steps of worker.mirrorInternal and
worker.writeProviderMetadata that the ordering claims talk about. -/
inductive MirrorStep where
  | checkAllowed
  | enumerate
  | writeIndices
  | commit
  | mirrorKeys
  | writeMetadataFile
  | assemble
deriving DecidableEq, Repr

/-- MirrorOracle tells, for each pipeline step of worker.mirrorInternal,
whether it succeeds. -/
structure MirrorOracle where
  allowed : Bool
  enumerateOk : Bool
  indicesOk : Bool
  commitOk : Bool
  keysOk : Bool
  metadataWriteOk : Bool
  assembleOk : Bool
deriving DecidableEq, Repr

/-- writeProviderMetadataTrace embeds worker.writeProviderMetadata as the
steps it attempts in order: it builds the metadata In memory, mirrors the PGP
keys (mirrorPGPKeys), and only then writes provider-metadata.json; a key
mirroring failure returns before the file is written. -/
def writeProviderMetadataTrace (o : MirrorOracle) : List MirrorStep × Bool :=
  if !o.keysOk then ([.mirrorKeys], false)
  else if !o.metadataWriteOk then ([.mirrorKeys, .writeMetadataFile], false)
  else ([.mirrorKeys, .writeMetadataFile], true)

/-- mirrorInternalTrace embeds worker.mirrorInternal as the sequence of
pipeline steps it attempts, in source order: mirrorAllowed, afp.Process,
writeIndices, doMirrorTransaction, writeProviderMetadata (keys then metadata
file), then createAggregatorProvider; the first failing step ends the trace
with failure. -/
def mirrorInternalTrace (o : MirrorOracle) : List MirrorStep × Bool :=
  if !o.allowed then ([.checkAllowed], false)
  else if !o.enumerateOk then ([.checkAllowed, .enumerate], false)
  else if !o.indicesOk then ([.checkAllowed, .enumerate, .writeIndices], false)
  else if !o.commitOk then
    ([.checkAllowed, .enumerate, .writeIndices, .commit], false)
  else
    let pm := writeProviderMetadataTrace o
    let pre : List MirrorStep := [.checkAllowed, .enumerate, .writeIndices, .commit]
    if !pm.2 then (pre ++ pm.1, false)
    else if !o.assembleOk then (pre ++ pm.1 ++ [.assemble], false)
    else (pre ++ pm.1 ++ [.assemble], true)

/-- allOk is the oracle of a fully successful mirror run. -/
def allOk : MirrorOracle :=
  { allowed := true, enumerateOk := true, indicesOk := true, commitOk := true,
    keysOk := true, metadataWriteOk := true, assembleOk := true }

/-- StatOutcome models the os.Stat call on the publish path in
worker.doMirrorTransaction: success, the IsNotExist case, or another error. -/
inductive StatOutcome where
  | ok
  | notExist
  | failed
deriving DecidableEq, Repr

/-- TxOracle fixes the outcome of each filesystem call of
worker.doMirrorTransaction. evalOld is the filepath.EvalSymlinks result on the
existing publish path (none models an error); targetCheck is util.PathExists
on folder/provider-name (none models an error). -/
structure TxOracle where
  statWeb : StatOutcome
  evalOld : Option String
  targetCheck : Option Bool
  removeTargetOk : Bool
  symlinkOk : Bool
  renameOk : Bool
  removeOldOk : Bool
deriving DecidableEq, Repr

/-- TxResult reifies the effects of worker.doMirrorTransaction: whether the
staging directory was removed by the function, whether it returned an error,
whether the rename (the atomic swap) happened, and whether the old target was
removed. -/
structure TxResult where
  removedStaging : Bool
  errored : Bool
  renamed : Bool
  removedOld : Bool
deriving DecidableEq, Repr

/-- txFail is the result of the error paths before the rename: the staging
directory is removed and the error is returned. -/
def txFail : TxResult :=
  { removedStaging := true, errored := true, renamed := false, removedOld := false }

/-- doMirrorTransactionRest embeds worker.doMirrorTransaction from the
PathExists check on: removing an existing folder/provider-name entry, creating
the symlink, renaming it over the publish path, and finally removing the old
target when one was resolved. Every failure up to and including the rename
removes the staging directory and returns the error; a failure of the final
removal returns its error without touching the staging directory. -/
def doMirrorTransactionRest (o : TxOracle) (oldWeb : String) : TxResult :=
  match o.targetCheck with
  | none => txFail
  | some present =>
    if present && !o.removeTargetOk then txFail
    else if !o.symlinkOk then txFail
    else if !o.renameOk then txFail
    else if oldWeb ≠ "" then
      if o.removeOldOk then
        { removedStaging := false, errored := false, renamed := true, removedOld := true }
      else
        { removedStaging := false, errored := true, renamed := true, removedOld := false }
    else
      { removedStaging := false, errored := false, renamed := true, removedOld := false }

/-- doMirrorTransaction embeds worker.doMirrorTransaction: resolve the old
publish target (errors other than IsNotExist remove staging and report), then
run the swap steps. -/
def doMirrorTransaction (o : TxOracle) : TxResult :=
  match o.statWeb with
  | .failed => txFail
  | .ok =>
    match o.evalOld with
    | none => txFail
    | some oldWeb => doMirrorTransactionRest o oldWeb
  | .notExist => doMirrorTransactionRest o ""

/-- FetchResult is the outcome of one downloadJSON call in
processor.locateProviderMetadata: the errNotFound sentinel (HTTP 404/410, or a
JSON decode failure, which the download closure maps to errNotFound), any
other error, or success with the decoded document (none models JSON null,
which leaves the doc variable nil). -/
inductive FetchResult (α : Type) where
  | notFound
  | failed
  | ok (doc : Option α)
deriving DecidableEq, Repr

/-- LocateEnv bundles the network oracles of locateProviderMetadata: probe is
downloadJSON keyed by URL (also used for the URL taken from security.txt);
secGet is the plain GET of .well-known/security.txt (none is a transport
error, some code its HTTP status); secURLs is the csaf.ExtractProviderURL
result on the body (none models an extraction error). -/
structure LocateEnv (α : Type) where
  probe : String → FetchResult α
  secGet : Option Nat
  secURLs : Option (List String)

/-- LocateResult is the triple returned by locateProviderMetadata: the decoded
document (none models a nil interface value), the URL it was obtained from,
and whether a non-nil error was returned. -/
structure LocateResult (α : Type) where
  doc : Option α
  url : String
  errored : Bool
deriving Repr

/-- providerMetadataLocations is the fixed probe order of processor.go. -/
def providerMetadataLocations : List String :=
  [".well-known/csaf", "security/data/csaf", "advisories/csaf", "security/csaf"]

/-- probeLoop embeds the well-known location loop of locateProviderMetadata:
errNotFound continues with the next location, any other error returns it, a
decoded non-nil document returns with its URL, and a nil document (JSON null)
continues; none means the loop was exhausted. -/
def probeLoop {α : Type} (probe : String → FetchResult α) (domain : String) :
    List String → Option (LocateResult α)
  | [] => none
  | loc :: rest =>
    let url := "https://" ++ domain ++ "/" ++ loc
    match probe url with
    | .notFound => probeLoop probe domain rest
    | .failed => some { doc := none, url := "", errored := true }
    | .ok d =>
      match d with
      | some doc => some { doc := some doc, url := url, errored := false }
      | none => probeLoop probe domain rest

/-- locateProviderMetadata embeds processor.locateProviderMetadata: the four
well-known probes in order, then the security.txt fallback. Note the source
line `if res.StatusCode != http.StatusOK { return nil, "", nil }`: a non-200
security.txt status returns a nil document with a nil error. -/
def locateProviderMetadata {α : Type} (env : LocateEnv α) (domain : String) :
    LocateResult α :=
  match probeLoop env.probe domain providerMetadataLocations with
  | some r => r
  | none =>
    match env.secGet with
    | none => { doc := none, url := "", errored := true }
    | some status =>
      if status ≠ 200 then { doc := none, url := "", errored := false }
      else
        match env.secURLs with
        | none => { doc := none, url := "", errored := true }
        | some urls =>
          match urls with
          | [] => { doc := none, url := "", errored := true }
          | loc :: _ =>
            match env.probe loc with
            | .notFound => { doc := none, url := "", errored := true }
            | .failed => { doc := none, url := "", errored := true }
            | .ok d => { doc := d, url := loc, errored := false }

/-- FileStat models the os.Stat result on a resolved orphan target. -/
structure FileStat where
  isDir : Bool
deriving DecidableEq, Repr

/-- EntryInfo models what processor.removeOrphans learns about one web
directory entry: its file mode (symlink or not), the filepath.EvalSymlinks
resolution (none is an error, e.g. a dangling link), the os.Stat of the
resolved target (none is an error), and whether the os.Remove of the link
succeeds. -/
structure EntryInfo where
  isSymlink : Bool
  resolved : Option String
  target : Option FileStat
  removeLinkOk : Bool
deriving DecidableEq, Repr

/-- WebEntry is one entry of the web directory listing; info none models an
entry.Info() error. -/
structure WebEntry where
  name : String
  info : Option EntryInfo
deriving DecidableEq, Repr

/-- OrphanAction reifies the filesystem removals performed by
processor.removeOrphans: removing the symlink at web/name, and removing the
resolved target directory. -/
inductive OrphanAction where
  | removeLink (name : String)
  | removeDir (target : String)
deriving DecidableEq, Repr

/-- orphanEntryActions embeds one iteration of the entry loop of
processor.removeOrphans. Entries still in the configuration are kept; info
errors, non-symlinks, resolution errors, stat errors and non-directory targets
are skipped; otherwise the link is removed (a failing os.Remove logs and
skips the rest), and the resolved directory is removed only when the
inFolder check (filepath.Rel(prefix, r) succeeding with the base name of r,
i.e. r lying directly inside the folder) passes. -/
def orphanEntryActions (keep : String → Bool) (inFolder : String → Bool)
    (e : WebEntry) : List OrphanAction :=
  if keep e.name then []
  else
    match e.info with
    | none => []
    | some fi =>
      if !fi.isSymlink then []
      else
        match fi.resolved with
        | none => []
        | some r =>
          match fi.target with
          | none => []
          | some st =>
            if !st.isDir then []
            else if !fi.removeLinkOk then []
            else
              OrphanAction.removeLink e.name ::
                (if inFolder r then [OrphanAction.removeDir r] else [])

/-- removeOrphansActions runs the entry loop of processor.removeOrphans over
the whole web directory listing, collecting the removals in order. -/
def removeOrphansActions (keep : String → Bool) (inFolder : String → Bool)
    (entries : List WebEntry) : List OrphanAction :=
  (entries.map (orphanEntryActions keep inFolder)).flatten

/-- externalLinkEntry is the orphan-cleanup scenario input of the
specification: a web entry named external-link that is a symlink resolving to
a directory outside the folder. -/
def externalLinkEntry : WebEntry :=
  { name := "external-link"
    info := some { isSymlink := true, resolved := some "/outside/dir",
                   target := some { isDir := true }, removeLinkOk := true } }

/-- renameFailOracle is a transaction run in which everything up to the
symlink creation succeeds and the rename (step 4) fails. -/
def renameFailOracle : TxOracle :=
  { statWeb := .notExist, evalOld := none, targetCheck := some false,
    removeTargetOk := true, symlinkOk := true, renameOk := false,
    removeOldOk := true }

/-- c3Env is the network oracle in which all four well-known probes answer
with the not-found sentinel and the security.txt GET yields HTTP 503. -/
def c3Env : LocateEnv String :=
  { probe := fun _ => .notFound, secGet := some 503, secURLs := none }

/-- c4Entry is a ROLIE feed entry carrying a self link, a single sha256 hash
link and a signature link. -/
def c4Entry : Entry :=
  { updated := { sec := 0, year := 0 }
    links := [ { rel := "self", href := "https://p.test/2024/a-1.json" },
               { rel := "hash", href := "https://p.test/2024/a-1.json.sha256" },
               { rel := "signature", href := "https://p.test/2024/a-1.json.asc" } ] }

/-- c6Env is a directory-enumeration environment with one changes.csv row. -/
def c6Env : DirEnv :=
  { parseTime := fun s => if s = "2023-06-01T00:00:00Z" then
      some { sec := 100, year := 2023 } else none
    validURL := fun _ => true
    ageAccept := none
    join := fun b p => b ++ "/" ++ p
    changes := fun b => if b = "https://p.test" then
      some [["advisories/x.json", "2023-06-01T00:00:00Z"]] else none }

/-- c9Feed is a ROLIE feed reference without a TLP label. -/
def c9Feed : Feed := { url := some "https://p.test/feed.json", tlpLabel := none }

/-- c9Fetch serves one feed with a single complete entry. -/
def c9Fetch : String → Option (List Entry) := fun u =>
  if u = "https://p.test/feed.json" then
    some [ { updated := { sec := 5, year := 2024 }
             links := [ { rel := "self", href := "https://p.test/2024/b.json" },
                        { rel := "hash", href := "https://p.test/2024/b.json.sha512" },
                        { rel := "signature", href := "https://p.test/2024/b.json.asc" } ] } ]
  else none

/-- c8Summary is a concrete summary used to evaluate the feed URL
composition. -/
def c8Summary : Summary :=
  { filename := "a.json"
    adv := { id := "A-2024-01", title := "T", text := "",
             initialReleaseDate := { sec := 10, year := 2024 },
             currentReleaseDate := { sec := 20, year := 2024 } }
    url := "https://p.test/2024/a.json" }

/-- C1 counterexample: an orphan web entry that is a symlink resolving to a
directory outside the folder is not left in place unchanged; removeOrphans
removes the symlink (while sparing the target directory), refuting the claim
at the specification's own external-link scenario. -/
theorem c1_foreign_symlink_removed :
    removeOrphansActions (fun _ => false) (fun _ => false) [externalLinkEntry] =
      [OrphanAction.removeLink "external-link"] := rfl

/-- C2 counterexample: in a fully successful mirror run the commit
(doMirrorTransaction) is executed before mirrorPGPKeys and before
provider-metadata.json is written, refuting the claimed
WRITE_PROVIDER_METADATA before COMMIT order. -/
theorem c2_commit_before_metadata :
    (mirrorInternalTrace allOk).2 = true ∧
    (mirrorInternalTrace allOk).1 =
      [MirrorStep.checkAllowed, MirrorStep.enumerate, MirrorStep.writeIndices,
       MirrorStep.commit, MirrorStep.mirrorKeys, MirrorStep.writeMetadataFile,
       MirrorStep.assemble] ∧
    (mirrorInternalTrace allOk).1.indexOf MirrorStep.commit <
      (mirrorInternalTrace allOk).1.indexOf MirrorStep.writeMetadataFile := by
  decide

/-- C3: when all four well-known probes answer with the not-found sentinel and
the security.txt GET yields a non-200 status, locateProviderMetadata returns a
nil document, an empty URL and a nil error, the very case the claim rules
out. -/
theorem c3_nil_doc_and_nil_error :
    (locateProviderMetadata c3Env "example.com").doc = none ∧
    (locateProviderMetadata c3Env "example.com").url = "" ∧
    (locateProviderMetadata c3Env "example.com").errored = false :=
  ⟨rfl, rfl, rfl⟩

/-- C5 counterexample: when the rename over the publish path (step 4) fails,
doMirrorTransaction removes the staging directory and returns the error,
refuting the claim that failures at step 4 do not roll back and are only
logged. -/
theorem c5_rename_failure_rolls_back :
    (doMirrorTransaction renameFailOracle).removedStaging = true ∧
    (doMirrorTransaction renameFailOracle).errored = true ∧
    (doMirrorTransaction renameFailOracle).renamed = false := by
  decide

/-- C7: for every label the changes.csv records are exactly one two-column
record (RFC3339 current release, year/filename) per mirrored advisory, with
no header record, and they appear sorted by current release date in
descending order: the sorted slice is a permutation of the summaries and is
pairwise descending, and the written records are its image under the record
builder. -/
theorem c7_changes_csv_sorted_descending (fmt : GoTime → String)
    (summaries : List Summary) :
    (writeCSVRun fmt summaries).1 =
      (sortByCurrentDesc summaries).map (csvRecord fmt) ∧
    (sortByCurrentDesc summaries).Perm summaries ∧
    List.Pairwise (fun a b : Summary =>
      b.adv.currentReleaseDate.sec ≤ a.adv.currentReleaseDate.sec)
      (sortByCurrentDesc summaries) ∧
    (writeCSVRun fmt summaries).1.length = summaries.length ∧
    ∀ r ∈ (writeCSVRun fmt summaries).1, ∃ s ∈ summaries,
      r = [fmt s.adv.currentReleaseDate, yearSlash s] := by
  refine ⟨rfl, List.mergeSort_perm summaries csvLE, ?_, ?_, ?_⟩
  · have h := @List.sorted_mergeSort Summary csvLE
      (fun a b c hab hbc => by
        simp only [csvLE, GoTime.after, Bool.not_eq_true', decide_eq_false_iff_not,
          not_lt] at hab hbc ⊢
        exact le_trans hbc hab)
      (fun a b => by
        simp only [csvLE, GoTime.after, Bool.or_eq_true, Bool.not_eq_true',
          decide_eq_false_iff_not, not_lt]
        omega)
      summaries
    exact List.Pairwise.imp
      (fun hab => by
        simpa [csvLE, GoTime.after] using hab) h
  · simp [writeCSVRun, sortByCurrentDesc]
  · intro r hr
    simp only [writeCSVRun, List.mem_map] at hr
    obtain ⟨s, hs, rfl⟩ := hr
    exact ⟨s, (List.mergeSort_perm summaries csvLE).mem_iff.mp hs, rfl⟩

/-- C8: the per-entry self link and content src written by writeROLIE are
composed with a stray dot between the domain and well-known: at a concrete
summary the produced URL is domain followed by "./well-known/...", not the
claimed unambiguous domain followed by "/.well-known/...". -/
theorem c8_entry_url_has_stray_dot :
    (rolieEntryOf "https://example.com" "p" "white" c8Summary).selfLink =
      "https://example.com./well-known/csaf-aggregator/p/white/2024/a.json" ∧
    (rolieEntryOf "https://example.com" "p" "white" c8Summary).contentSrc =
      "https://example.com./well-known/csaf-aggregator/p/white/2024/a.json" ∧
    csafEntryURL "https://example.com" "p" "white" c8Summary ≠
      specEntryURL "https://example.com" "p" "white" c8Summary := by
  refine ⟨rfl, rfl, ?_⟩
  decide

/-- C10: writeCSV sorts a private copy and leaves the caller's summaries slice
unchanged, so within one label iteration of writeIndices the index.txt lines
observed after writeCSV are exactly the year/filename lines in enumeration
order, while the changes.csv records of the same run are the sorted ones. -/
theorem c10_write_csv_leaves_input_order (fmt : GoTime → String)
    (domain providerName label : String) (summaries : List Summary) :
    (writeCSVRun fmt summaries).2 = summaries ∧
    (writeIndicesLabel fmt domain providerName label summaries).2.1 =
      summaries.map yearSlash ∧
    (writeIndicesLabel fmt domain providerName label summaries).1 =
      (sortByCurrentDesc summaries).map (csvRecord fmt) :=
  ⟨rfl, rfl, rfl⟩

/-- C1 (amended): orphan removal never touches entries still in the
configuration, never touches real directories (non-symlinks), removes the
resolved target directory only when it lies directly inside the folder, and
removes the symlink itself whenever the entry is an orphan symlink that
resolves to a directory, even when that directory lies outside the folder. -/
theorem c1_orphan_removal_characterization (keep inFolder : String → Bool)
    (name : String) :
    (∀ info, keep name = true →
      orphanEntryActions keep inFolder ⟨name, info⟩ = []) ∧
    (∀ fi, fi.isSymlink = false →
      orphanEntryActions keep inFolder ⟨name, some fi⟩ = []) ∧
    (∀ info r, OrphanAction.removeDir r ∈
        orphanEntryActions keep inFolder ⟨name, info⟩ →
      inFolder r = true) ∧
    (∀ r, keep name = false →
      orphanEntryActions keep inFolder
          ⟨name, some ⟨true, some r, some ⟨true⟩, true⟩⟩ =
        OrphanAction.removeLink name ::
          (if inFolder r then [OrphanAction.removeDir r] else [])) := by
  refine ⟨?_, ?_, ?_, ?_⟩
  · intro info h
    simp [orphanEntryActions, h]
  · intro fi hsym
    by_cases hk : keep name <;> simp [orphanEntryActions, hk, hsym]
  · intro info r hr
    by_cases hk : keep name
    · simp [orphanEntryActions, hk] at hr
    · cases info with
      | none => simp [orphanEntryActions, hk] at hr
      | some fi =>
        obtain ⟨sym, res, tg, rm⟩ := fi
        cases sym with
        | false => simp [orphanEntryActions, hk] at hr
        | true =>
          cases res with
          | none => simp [orphanEntryActions, hk] at hr
          | some r0 =>
            cases tg with
            | none => simp [orphanEntryActions, hk] at hr
            | some st =>
              obtain ⟨d⟩ := st
              cases d with
              | false => simp [orphanEntryActions, hk] at hr
              | true =>
                cases rm with
                | false => simp [orphanEntryActions, hk] at hr
                | true =>
                  by_cases hin : inFolder r0
                  · simp [orphanEntryActions, hk, hin] at hr
                    subst hr
                    exact hin
                  · simp [orphanEntryActions, hk, hin] at hr
  · intro r hk
    simp [orphanEntryActions, hk]

/-- C1 witness: the characterization applied to a concrete orphan entry whose
symlink resolves to a directory directly inside the folder: both the link and
the target directory are removed. -/
theorem c1_orphan_removal_witness :
    ((fun _ : String => false) "gone" = false) ∧
    orphanEntryActions (fun _ => false) (fun r => r == "/folder/gone")
        ⟨"gone", some ⟨true, some "/folder/gone", some ⟨true⟩, true⟩⟩ =
      [OrphanAction.removeLink "gone", OrphanAction.removeDir "/folder/gone"] :=
  ⟨rfl, by
    have h := (c1_orphan_removal_characterization (fun _ => false)
      (fun r => r == "/folder/gone") "gone").2.2.2 "/folder/gone" rfl
    simpa using h⟩

/-- C2 (amended): in every successful mirror run the pipeline order is
CHECK_ALLOWED, ENUMERATE, WRITE_INDICES, COMMIT, MIRROR_KEYS, then writing
provider-metadata.json; whenever the metadata file write is reached, the
commit has already happened and the keys were mirrored first, so the metadata
file is written into the already-published directory, not into a
pre-commit staging area. -/
theorem c2_pipeline_order (o : MirrorOracle) :
    ((mirrorInternalTrace o).2 = true →
      (mirrorInternalTrace o).1 =
        [MirrorStep.checkAllowed, MirrorStep.enumerate, MirrorStep.writeIndices,
         MirrorStep.commit, MirrorStep.mirrorKeys, MirrorStep.writeMetadataFile,
         MirrorStep.assemble]) ∧
    (MirrorStep.writeMetadataFile ∈ (mirrorInternalTrace o).1 →
      MirrorStep.commit ∈ (mirrorInternalTrace o).1 ∧
      (mirrorInternalTrace o).1.indexOf MirrorStep.commit <
        (mirrorInternalTrace o).1.indexOf MirrorStep.writeMetadataFile) ∧
    (MirrorStep.writeMetadataFile ∈ (mirrorInternalTrace o).1 →
      (mirrorInternalTrace o).1.indexOf MirrorStep.mirrorKeys <
        (mirrorInternalTrace o).1.indexOf MirrorStep.writeMetadataFile) := by
  obtain ⟨a, b, c, d, e, f, g⟩ := o
  cases a <;> cases b <;> cases c <;> cases d <;> cases e <;> cases f <;>
    cases g <;> decide

/-- C2 witness: the pipeline-order theorem applied to the fully successful
run. -/
theorem c2_pipeline_order_witness :
    (mirrorInternalTrace allOk).2 = true ∧
    (mirrorInternalTrace allOk).1 =
      [MirrorStep.checkAllowed, MirrorStep.enumerate, MirrorStep.writeIndices,
       MirrorStep.commit, MirrorStep.mirrorKeys, MirrorStep.writeMetadataFile,
       MirrorStep.assemble] :=
  ⟨by decide, (c2_pipeline_order allOk).1 (by decide)⟩

/-- C5 (amended): every failure of doMirrorTransaction up to and including the
rename of step 4 removes the staging directory and reports the error; once the
rename has happened the staging directory is never removed by the transaction,
and a failure of the final old-target removal (step 5) reports its error
without rolling back; a successful run removes nothing. -/
theorem c5_transaction_rollback (o : TxOracle) :
    ((doMirrorTransaction o).errored = true → (doMirrorTransaction o).renamed = false →
      (doMirrorTransaction o).removedStaging = true) ∧
    ((doMirrorTransaction o).renamed = true →
      (doMirrorTransaction o).removedStaging = false) ∧
    ((doMirrorTransaction o).errored = false →
      (doMirrorTransaction o).removedStaging = false) ∧
    ((doMirrorTransaction o).renamed = true → (doMirrorTransaction o).errored = true →
      (doMirrorTransaction o).removedOld = false) := by
  obtain ⟨sw, eo, tc, rt, sl, rn, ro⟩ := o
  have rest : ∀ oldWeb : String,
      ((doMirrorTransactionRest ⟨sw, eo, tc, rt, sl, rn, ro⟩ oldWeb).errored = true →
        (doMirrorTransactionRest ⟨sw, eo, tc, rt, sl, rn, ro⟩ oldWeb).renamed = false →
        (doMirrorTransactionRest ⟨sw, eo, tc, rt, sl, rn, ro⟩ oldWeb).removedStaging = true) ∧
      ((doMirrorTransactionRest ⟨sw, eo, tc, rt, sl, rn, ro⟩ oldWeb).renamed = true →
        (doMirrorTransactionRest ⟨sw, eo, tc, rt, sl, rn, ro⟩ oldWeb).removedStaging = false) ∧
      ((doMirrorTransactionRest ⟨sw, eo, tc, rt, sl, rn, ro⟩ oldWeb).errored = false →
        (doMirrorTransactionRest ⟨sw, eo, tc, rt, sl, rn, ro⟩ oldWeb).removedStaging = false) ∧
      ((doMirrorTransactionRest ⟨sw, eo, tc, rt, sl, rn, ro⟩ oldWeb).renamed = true →
        (doMirrorTransactionRest ⟨sw, eo, tc, rt, sl, rn, ro⟩ oldWeb).errored = true →
        (doMirrorTransactionRest ⟨sw, eo, tc, rt, sl, rn, ro⟩ oldWeb).removedOld = false) := by
    intro oldWeb
    unfold doMirrorTransactionRest
    cases tc with
    | none => simp [txFail]
    | some present =>
      dsimp only
      split_ifs <;> simp_all [txFail]
  cases sw with
  | failed => simp [doMirrorTransaction, txFail]
  | notExist => exact rest ""
  | ok =>
    cases eo with
    | none => simp [doMirrorTransaction, txFail]
    | some oldWeb => exact rest oldWeb

/-- C5 witness: the rollback characterization applied to a run in which the
PathExists check on the folder entry fails (a pre-rename failure). -/
theorem c5_transaction_rollback_witness :
    (doMirrorTransaction
        { statWeb := .notExist, evalOld := none, targetCheck := none,
          removeTargetOk := true, symlinkOk := true, renameOk := true,
          removeOldOk := true }).errored = true ∧
    (doMirrorTransaction
        { statWeb := .notExist, evalOld := none, targetCheck := none,
          removeTargetOk := true, symlinkOk := true, renameOk := true,
          removeOldOk := true }).removedStaging = true :=
  ⟨by decide,
   (c5_transaction_rollback
      { statWeb := .notExist, evalOld := none, targetCheck := none,
        removeTargetOk := true, symlinkOk := true, renameOk := true,
        removeOldOk := true }).1 (by decide) (by decide)⟩

/-- C4: characterization of the per-entry filtering of processROLIE, for
every entry passing the age filter: no self link (after resolution) means a
silent skip; a self link with neither hash link means a logged drop; a self
link with at least one hash but no signature link means a logged drop; a self
link, at least one hash (one suffices) and a signature mean the entry is
emitted as a plain advisory file carrying exactly the scanned URLs. -/
theorem c4_rolie_entry_filtering (ageAccept : Option (GoTime → Bool))
    (resolve : String → String) (e : Entry)
    (hage : passesAge ageAccept e = true) :
    ((scanLinks resolve e.links).self = "" →
      processEntry ageAccept resolve e = .skipped ∧
      (processEntry ageAccept resolve e).logged = false) ∧
    ((scanLinks resolve e.links).self ≠ "" →
      (scanLinks resolve e.links).sha256 = "" →
      (scanLinks resolve e.links).sha512 = "" →
      processEntry ageAccept resolve e = .droppedNoHash ∧
      (processEntry ageAccept resolve e).logged = true) ∧
    ((scanLinks resolve e.links).self ≠ "" →
      ((scanLinks resolve e.links).sha256 ≠ "" ∨
        (scanLinks resolve e.links).sha512 ≠ "") →
      (scanLinks resolve e.links).sign = "" →
      processEntry ageAccept resolve e = .droppedNoSig ∧
      (processEntry ageAccept resolve e).logged = true) ∧
    ((scanLinks resolve e.links).self ≠ "" →
      ((scanLinks resolve e.links).sha256 ≠ "" ∨
        (scanLinks resolve e.links).sha512 ≠ "") →
      (scanLinks resolve e.links).sign ≠ "" →
      processEntry ageAccept resolve e =
        .emitted (.plain (scanLinks resolve e.links).self
          (scanLinks resolve e.links).sha256
          (scanLinks resolve e.links).sha512
          (scanLinks resolve e.links).sign)) := by
  have hpe : processEntry ageAccept resolve e =
      (let s := scanLinks resolve e.links
       if s.self = "" then .skipped
       else if s.sha256 = "" && s.sha512 = "" then .droppedNoHash
       else if s.sign = "" then .droppedNoSig
       else .emitted (.plain s.self s.sha256 s.sha512 s.sign)) := by
    simp [processEntry, hage]
  rw [hpe]
  set s := scanLinks resolve e.links with hs
  refine ⟨?_, ?_, ?_, ?_⟩
  · intro h
    simp [h, EntryResult.logged]
  · intro h hn256 hn512
    simp [h, hn256, hn512, EntryResult.logged]
  · intro h hhash hsig
    have hb : (decide (s.sha256 = "") && decide (s.sha512 = "")) = false := by
      rcases hhash with hh | hh <;> simp [hh]
    simp [h, hb, hsig, EntryResult.logged]
  · intro h hhash hsig
    have hb : (decide (s.sha256 = "") && decide (s.sha512 = "")) = false := by
      rcases hhash with hh | hh <;> simp [hh]
    simp [h, hb, hsig, EntryResult.logged]

/-- C4 witness: a concrete entry with a self link, a single sha256 hash link
and a signature link passes the filter and is emitted with an empty sha512
URL (one hash is sufficient). -/
theorem c4_rolie_entry_filtering_witness :
    passesAge none c4Entry = true ∧
    processEntry none (fun s => s) c4Entry =
      .emitted (.plain "https://p.test/2024/a-1.json"
        "https://p.test/2024/a-1.json.sha256" ""
        "https://p.test/2024/a-1.json.asc") := by
  refine ⟨rfl, ?_⟩
  have h := (c4_rolie_entry_filtering none (fun s => s) c4Entry rfl).2.2.2
    (by decide) (by decide) (by decide)
  rw [h]
  decide

/-- Helper for C6: every advisory file produced by one changes.csv row is the
directory variant. -/
theorem loadChangesRow_directory (env : DirEnv) (base : String) (r : List String)
    (f : AdvisoryFile) (h : loadChangesRow env base r = some f) :
    ∃ p, f = .directory p := by
  unfold loadChangesRow at h
  split at h
  · cases h
  · split at h
    · cases h
    · split at h
      · cases h
      · dsimp only at h
        split at h
        · cases h
        · exact ⟨_, (Option.some.inj h).symm⟩

/-- Helper for C6: every advisory file loaded from changes.csv is the
directory variant. -/
theorem mem_loadChangesFiles_directory (env : DirEnv) (base : String)
    (rows : List (List String)) (f : AdvisoryFile)
    (h : f ∈ loadChangesFiles env base rows) : ∃ p, f = .directory p := by
  obtain ⟨r, _, hr⟩ := List.mem_filterMap.mp h
  exact loadChangesRow_directory env base r f hr

/-- Helper for C6: every callback invocation of the directory walk carries the
WHITE label and only directory-variant files. -/
theorem mem_processDirectories_go (env : DirEnv) (bases : List String)
    (inv : String × List AdvisoryFile)
    (h : inv ∈ (processDirectories.go env bases).1) :
    inv.1 = "WHITE" ∧ ∀ f ∈ inv.2, ∃ p, f = .directory p := by
  induction bases with
  | nil => simp [processDirectories.go] at h
  | cons base rest ih =>
    by_cases hb : base = ""
    · rw [processDirectories.go, if_pos hb] at h
      exact ih h
    · rw [processDirectories.go, if_neg hb] at h
      cases hc : env.changes base with
      | none =>
        rw [hc] at h
        simp at h
      | some rows =>
        rw [hc] at h
        rcases List.mem_cons.mp h with hh | hh
        · subst hh
          exact ⟨rfl, fun f hf => mem_loadChangesFiles_directory env base rows f hf⟩
        · exact ih hh

/-- C6: every advisory file produced by the directory-based enumeration path
is emitted under the literal WHITE label, is the directory variant, and its
integrity and signature URLs are the canonical URL suffixed with .sha256,
.sha512 and .asc. -/
theorem c6_directory_white_and_derived_urls (env : DirEnv)
    (dirURLs : List String) (baseURL : String)
    (inv : String × List AdvisoryFile)
    (hinv : inv ∈ (processDirectories env dirURLs baseURL).1) :
    inv.1 = "WHITE" ∧ ∀ f ∈ inv.2,
      f.isDirectory = true ∧
      f.sha256URL = f.url ++ ".sha256" ∧
      f.sha512URL = f.url ++ ".sha512" ∧
      f.signURL = f.url ++ ".asc" := by
  obtain ⟨hl, hf⟩ := mem_processDirectories_go env
    (directoryBases dirURLs baseURL) inv hinv
  refine ⟨hl, fun f hfm => ?_⟩
  obtain ⟨p, rfl⟩ := hf f hfm
  exact ⟨rfl, rfl, rfl, rfl⟩

/-- C6 witness: a concrete directory enumeration with one changes.csv row
produces one WHITE invocation whose single file has derived URLs. -/
theorem c6_directory_white_witness :
    (("WHITE", [AdvisoryFile.directory "https://p.test/advisories/x.json"]) ∈
      (processDirectories c6Env ["https://p.test"] "https://p.test").1) ∧
    (("WHITE", [AdvisoryFile.directory "https://p.test/advisories/x.json"]) :
        String × List AdvisoryFile).1 = "WHITE" ∧
    (∀ f ∈ (("WHITE", [AdvisoryFile.directory "https://p.test/advisories/x.json"]) :
        String × List AdvisoryFile).2,
      f.isDirectory = true ∧
      f.sha256URL = f.url ++ ".sha256" ∧
      f.sha512URL = f.url ++ ".sha512" ∧
      f.signURL = f.url ++ ".asc") := by
  have hm : ("WHITE", [AdvisoryFile.directory "https://p.test/advisories/x.json"]) ∈
      (processDirectories c6Env ["https://p.test"] "https://p.test").1 := by
    decide
  obtain ⟨h1, h2⟩ := c6_directory_white_and_derived_urls c6Env
    ["https://p.test"] "https://p.test" _ hm
  exact ⟨hm, h1, h2⟩

/-- C9: a ROLIE feed whose metadata entry carries no TLP label is not
dropped; its advisory files are passed to the per-label callback under the
literal label "unknown". -/
theorem c9_unlabeled_feed_gets_unknown (ageAccept : Option (GoTime → Bool))
    (resolve : String → String) (fetch : String → Option (List Entry))
    (feed : Feed) (u : String) (entries : List Entry)
    (hurl : feed.url = some u) (hlabel : feed.tlpLabel = none)
    (hfetch : fetch u = some entries) :
    processROLIEFeed ageAccept resolve fetch feed =
      some ("unknown", feedFiles ageAccept resolve entries) := by
  simp [processROLIEFeed, hurl, hfetch, hlabel]

/-- C9 witness: a concrete unlabeled feed with one complete entry is emitted
under the label "unknown" with its advisory file. -/
theorem c9_unlabeled_feed_witness :
    c9Feed.url = some "https://p.test/feed.json" ∧
    c9Feed.tlpLabel = none ∧
    processROLIEFeed none (fun s => s) c9Fetch c9Feed =
      some ("unknown",
        [AdvisoryFile.plain "https://p.test/2024/b.json" ""
          "https://p.test/2024/b.json.sha512" "https://p.test/2024/b.json.asc"]) := by
  refine ⟨rfl, rfl, ?_⟩
  have h := c9_unlabeled_feed_gets_unknown none (fun s => s) c9Fetch c9Feed
    "https://p.test/feed.json" _ rfl rfl rfl
  rw [h]
  decide

end Csaf
